import Mathlib

/-!
Shallow embedding of the space-weather collector pipeline
(`python-backend/data_collectors/`): the Dst estimate, forecast generation,
alert evaluation, X-ray flare classification, activity-level classification,
sunspot flare-potential assessment, flare-to-region attribution and the
solar-cycle-phase classification.

Numeric feed values are modelled as rationals; a fetched feed is
`Option Stats` (`none` models the fetcher's empty-dict result after a swallowed
transport error) and a field that the feed reports as null is `Option ℚ`
inside the stats record (the fetchers store `None` for NaN samples, so the
dict key is always present on a successful fetch).  Where Python compares a
null value with a number it raises `TypeError`; that outcome is modelled
explicitly with `Except Unit`.  The Dst value itself is real-valued because
of the square root in its formula.
-/

namespace SpaceWeather

/-- Summary produced by fetch_solar_wind_data on success: the latest sample's
speed/density/temperature, each null when the sample was NaN.  The 24h
aggregates and timestamp are not consumed by the functions modelled here and
are omitted. -/
structure SolarWindStats where
  current_speed : Option ℚ
  current_density : Option ℚ
  current_temperature : Option ℚ
deriving DecidableEq

/-- Summary produced by fetch_magnetometer_data on success: latest Bz/Bt
(null when NaN) and the southward duration, which is computed as a count of
samples times 15 and is therefore always a number. -/
structure MagStats where
  current_bz : Option ℚ
  current_bt : Option ℚ
  southward_duration_minutes : ℚ
deriving DecidableEq

/-- Reading a numeric field off a fetched feed the way the collector does with
dict.get(key, 0): an absent feed (empty dict) yields the default 0, a
present-but-null value raises TypeError as soon as it is compared, modelled
as an error. -/
def numOrRaise {α : Type} (feed : Option α) (field : α → Option ℚ) : Except Unit ℚ :=
  match feed with
  | none => Except.ok 0
  | some s =>
    match field s with
    | none => Except.error ()
    | some v => Except.ok v

/-- calculate_dst_estimate (space_weather_collector.py, lines 76-96).  Both
feeds are fetched afresh; an empty result from either returns 0.0 early.  A
null current Bz raises TypeError at the comparison with 0, and a null speed
raises inside the sqrt when Bz is negative; both exceptions are caught by the
surrounding handler, which returns 0.0. -/
noncomputable def calculate_dst_estimate
    (solar_wind : Option SolarWindStats) (mag_data : Option MagStats) : ℝ :=
  match solar_wind, mag_data with
  | none, _ => 0
  | some _, none => 0
  | some s, some m =>
    match m.current_bz with
    | none => 0
    | some bz =>
      if 0 ≤ bz then -2
      else
        match s.current_speed with
        | none => 0
        | some v => -20 * Real.sqrt ((v : ℝ) / 400) * |(bz : ℝ)|

/-- Python's round(x, 2) on the rationals reachable in the forecast (all of
which have at most two decimal places, so no half-way ties arise). -/
def round2 (q : ℚ) : ℚ := ((round (q * 100) : ℤ) : ℚ) / 100

/-- estimate_kp (space_weather_collector.py, lines 188-199). -/
def estimate_kp (storm_probability : ℚ) : ℕ :=
  if storm_probability < 0.2 then 3
  else if storm_probability < 0.4 then 4
  else if storm_probability < 0.6 then 5
  else if storm_probability < 0.8 then 6
  else 7

/-- get_condition_description (space_weather_collector.py, lines 201-212). -/
def get_condition_description (storm_probability : ℚ) : String :=
  if storm_probability < 0.2 then "Quiet to unsettled"
  else if storm_probability < 0.4 then "Active conditions likely"
  else if storm_probability < 0.6 then "Minor storm possible"
  else if storm_probability < 0.8 then "Moderate storm likely"
  else "Strong storm expected"

/-- Raw per-day storm probability of generate_forecast (lines 119-125):
base 0.1, plus 0.3 for fast wind, 0.4 for strongly southward Bz, 0.2 for a
storm-level Dst estimate. -/
def storm_probability_raw (speed bz dst : ℚ) : ℚ :=
  0.1 + (if 600 < speed then 0.3 else 0)
      + (if bz < -10 then 0.4 else 0)
      + (if dst < -50 then 0.2 else 0)

/-- One entry of the predictions list built by generate_forecast.  The date
string now+day is modelled by the day offset. -/
structure Prediction where
  dayOffset : ℕ
  storm_probability : ℚ
  expected_kp : ℕ
  expected_conditions : String
deriving DecidableEq

/-- generate_forecast (space_weather_collector.py, lines 98-140), modelled on
the outcome of its three internal fetches: the two feed summaries and the
independently re-fetched Dst estimate (a finite float, taken here as a
rational input).  A null current speed or Bz raises TypeError inside the loop
on day 1; the handler then returns an error payload with no predictions,
modelled as Except.error.  Otherwise one prediction per day offset 1..days is
produced from the same current conditions. -/
def generate_forecast (solar_wind : Option SolarWindStats) (mag_data : Option MagStats)
    (dst : ℚ) (days : ℕ) : Except Unit (List Prediction) :=
  match numOrRaise solar_wind (fun s => s.current_speed),
        numOrRaise mag_data (fun m => m.current_bz) with
  | Except.ok speed, Except.ok bz =>
    Except.ok ((List.range days).map (fun i =>
      let p := min (storm_probability_raw speed bz dst) 0.95
      { dayOffset := i + 1
        storm_probability := round2 p
        expected_kp := estimate_kp p
        expected_conditions := get_condition_description p }))
  | _, _ => Except.error ()

/-- Condition label as a function of the Kp value, following the shared
breakpoints of estimate_kp and get_condition_description; used to state that
the textual label is determined by expected_kp. -/
def condition_of_kp (kp : ℕ) : String :=
  if kp = 3 then "Quiet to unsettled"
  else if kp = 4 then "Active conditions likely"
  else if kp = 5 then "Minor storm possible"
  else if kp = 6 then "Moderate storm likely"
  else "Strong storm expected"

/-- An alert record as appended by check_alerts; the formatted message and
generation timestamp are presentation data and are not modelled. -/
structure Alert where
  level : String
  type : String
deriving DecidableEq

/-- One threshold check of check_alerts: an error models a TypeError raised
while evaluating the condition (a null feed value compared with a number),
ok none a condition that is false, ok (some a) a triggered alert. -/
def alertChecks (solar_wind : Option SolarWindStats) (mag_data : Option MagStats)
    (dst : ℚ) : List (Except Unit (Option Alert)) :=
  [ (numOrRaise solar_wind (fun s => s.current_speed)).map
      (fun v => if 700 < v then some ⟨"warning", "solar_wind"⟩ else none),
    (numOrRaise mag_data (fun m => m.current_bz)).map
      (fun b => if b < -15 then some ⟨"alert", "magnetic_field"⟩ else none),
    Except.ok (if dst < -100 then some ⟨"severe", "geomagnetic_storm"⟩ else none),
    Except.ok (if 180 < (match mag_data with
                         | none => 0
                         | some m => m.southward_duration_minutes) then
                 some ⟨"warning", "sustained_southward"⟩ else none) ]

/-- Runs the checks the way the try/except in check_alerts does: alerts are
accumulated in order, and the first raising check aborts the remainder while
keeping what was already appended. -/
def runChecks : List (Except Unit (Option Alert)) → List Alert
  | [] => []
  | Except.error _ :: _ => []
  | Except.ok none :: rest => runChecks rest
  | Except.ok (some a) :: rest => a :: runChecks rest

/-- check_alerts (space_weather_collector.py, lines 142-186), on the outcome
of its internal fetches and Dst computation. -/
def check_alerts (solar_wind : Option SolarWindStats) (mag_data : Option MagStats)
    (dst : ℚ) : List Alert :=
  runChecks (alertChecks solar_wind mag_data dst)

/-- Whether a threshold check evaluates without raising. -/
def okCheck : Except Unit (Option Alert) → Bool
  | Except.ok _ => true
  | Except.error _ => false

/-- The alert a non-raising check contributes, if any. -/
def checkAlert : Except Unit (Option Alert) → Option Alert
  | Except.ok o => o
  | Except.error _ => none

/-- classify_xray_flux (satellite_data.py, lines 211-224); the float literals
1e-8 .. 1e-4 are exact rationals and int() truncates, which on the
nonnegative fluxes of the final branch is the floor. -/
def classify_xray_flux (flux : ℚ) : String :=
  if flux < 1e-8 then "A-class"
  else if flux < 1e-7 then "B-class"
  else if flux < 1e-6 then "C-class"
  else if flux < 1e-5 then "M-class"
  else if flux < 1e-4 then "X-class"
  else "X" ++ toString (⌊flux / 1e-4⌋ : ℤ) ++ "-class"

/-- The 24h flare counts by class letter consumed by
classify_activity_level; the Python dict always carries all four keys. -/
structure FlareCounts where
  B : ℕ
  C : ℕ
  M : ℕ
  X : ℕ
deriving DecidableEq

/-- classify_activity_level (solar_analysis.py, lines 354-369). -/
def classify_activity_level (flare_counts : FlareCounts) : String :=
  if 0 < flare_counts.X then "Very High"
  else if 3 ≤ flare_counts.M then "High"
  else if 1 ≤ flare_counts.M then "Moderate"
  else if 5 ≤ flare_counts.C then "Low-Moderate"
  else if 1 ≤ flare_counts.C then "Low"
  else if 1 ≤ flare_counts.B then "Very Low"
  else "Quiet"

/-- Lower-cased character list of a string, modelling Python str.lower on the
ASCII magnetic-class labels. -/
def strLower (s : String) : List Char := s.toList.map Char.toLower

/-- Python's substring containment needle in hay. -/
def containsSub (needle : String) (hay : List Char) : Prop :=
  needle.toList <:+: hay

instance (needle : String) (hay : List Char) : Decidable (containsSub needle hay) :=
  List.decidableInfix _ _

/-- An active-region record as built by fetch_sunspot_data for the
assessment: only the magnetic class (dict key class) and area fields are
consumed by assess_flare_potential; number, location and spots are carried
along unread and omitted here. -/
structure ActiveRegion where
  mag_class : String
  area : ℚ
deriving DecidableEq

/-- assess_flare_potential (solar_analysis.py, lines 337-352): a region is
counted complex when the lower-cased magnetic class contains the substring
delta, and large when its area exceeds 500. -/
def assess_flare_potential (regions : List ActiveRegion) : String :=
  match regions with
  | [] => "Very Low"
  | _ =>
    let complex_count := regions.countP (fun r => decide (containsSub "delta" (strLower r.mag_class)))
    let large_regions := regions.countP (fun r => decide ((500 : ℚ) < r.area))
    if 2 ≤ complex_count ∨ 3 ≤ large_regions then "High"
    else if 1 ≤ complex_count ∨ 2 ≤ large_regions then "Moderate"
    else if 5 ≤ regions.length then "Low-Moderate"
    else "Low"

/-- The complexity test the spec claims for the flare-potential counts: the
raw magnetic class contains beta-gamma, beta-gamma-delta or delta as a
substring (this is the test fetch_sunspot_data uses for its separate
complex_regions tally). -/
def spec_claims_complex (r : ActiveRegion) : Prop :=
  containsSub "beta-gamma" r.mag_class.toList ∨
  containsSub "beta-gamma-delta" r.mag_class.toList ∨
  containsSub "delta" r.mag_class.toList

instance (r : ActiveRegion) : Decidable (spec_claims_complex r) := by
  unfold spec_claims_complex; infer_instance

/-- A solar-regions feed entry as consumed by the flare-attribution path of
fetch_recent_flares; absent dict keys read through get(key, 0) are modelled
as the default value. -/
structure SolarRegion where
  region : String
  location : String
  area : ℚ
  mag_class : String
  x_xray_events : ℕ
  m_xray_events : ℕ
  c_xray_events : ℕ
  x_flare_probability : ℚ
  m_flare_probability : ℚ
  c_flare_probability : ℚ
deriving DecidableEq

/-- The filter building today_regions (solar_analysis.py, lines 254-258):
keep entries whose region and location fields are truthy. -/
def today_regions (regions_data : List SolarRegion) : List SolarRegion :=
  regions_data.filter (fun r => !(r.region == "") && !(r.location == ""))

/-- Historical-activity score used to pick among candidate regions
(lines 283-287). -/
def activityScore (r : SolarRegion) : ℚ :=
  (r.x_xray_events : ℚ) * 100 + (r.m_xray_events : ℚ) * 10 + (r.c_xray_events : ℚ)

/-- Complexity/size score of the final fallback (lines 293-298). -/
def complexScore (r : SolarRegion) : ℚ :=
  (if r.mag_class = "BGD" ∨ r.mag_class = "BG" ∨ r.mag_class = "BD" then 1 else 0) * 1000
    + r.area + r.c_flare_probability + r.m_flare_probability * 10
    + r.x_flare_probability * 100

/-- Python's max(list, key) for a nonempty list: the fold keeps the current
best and replaces it only on a strictly larger key, so the first-encountered
element wins exact ties. -/
def pyMax {α : Type} (key : α → ℚ) : List α → Option α
  | [] => none
  | x :: xs => some (xs.foldl (fun b y => if key b < key y then y else b) x)

/-- Candidate selection of the attribution path (lines 262-279): per flare
class, regions with matching historical events, falling back to the tiered
probability thresholds; goes-class letters other than X and M all take the
C branch. -/
def candidate_regions (flare_class : Char) (trs : List SolarRegion) : List SolarRegion :=
  if flare_class = 'X' then
    match trs.filter (fun r => 0 < r.x_xray_events) with
    | [] => trs.filter (fun r => (10 : ℚ) ≤ r.x_flare_probability)
    | c1 => c1
  else if flare_class = 'M' then
    match trs.filter (fun r => 0 < r.m_xray_events) with
    | [] => trs.filter (fun r => (20 : ℚ) ≤ r.m_flare_probability)
    | c1 => c1
  else
    match trs.filter (fun r => 0 < r.c_xray_events) with
    | [] => trs.filter (fun r => (30 : ℚ) ≤ r.c_flare_probability)
    | c1 => c1

/-- Source-region attribution for one flare (lines 281-302): the most active
candidate when candidates exist, else the most complex/largest region of
today_regions; none when today_regions is empty (the flare keeps an empty
region string). -/
def flare_source_region (flare_class : Char) (trs : List SolarRegion) : Option SolarRegion :=
  match candidate_regions flare_class trs with
  | [] => pyMax complexScore trs
  | c => pyMax activityScore c

/-- Solar-cycle-phase field of generate_assessment (solar_analysis.py,
lines 381-388): the sunspot number is read behind a Python truthiness test,
so a missing or zero value leaves the phase Unknown. -/
def solar_cycle_phase (sunspot_number : Option ℚ) : String :=
  match sunspot_number with
  | none => "Unknown"
  | some ssn =>
    if ssn = 0 then "Unknown"
    else if ssn < 30 then "Minimum"
    else if ssn < 80 then "Rising/Declining"
    else "Maximum"

/-- C4: for every nonnegative flux, classify_xray_flux maps the fixed
breakpoints 1e-8 / 1e-7 / 1e-6 / 1e-5 / 1e-4 to the classes A through X and
formats fluxes of at least 1e-4 as X floor(flux/1e-4); the breakpoints are
exact: flux 1e-8 is B-class while 9.999e-9 is A-class. -/
theorem classify_xray_flux_breakpoints (f : ℚ) (_hf : 0 ≤ f) :
    (f < 1e-8 → classify_xray_flux f = "A-class") ∧
    (1e-8 ≤ f → f < 1e-7 → classify_xray_flux f = "B-class") ∧
    (1e-7 ≤ f → f < 1e-6 → classify_xray_flux f = "C-class") ∧
    (1e-6 ≤ f → f < 1e-5 → classify_xray_flux f = "M-class") ∧
    (1e-5 ≤ f → f < 1e-4 → classify_xray_flux f = "X-class") ∧
    (1e-4 ≤ f → classify_xray_flux f = "X" ++ toString (⌊f / 1e-4⌋ : ℤ) ++ "-class") ∧
    classify_xray_flux 1e-8 = "B-class" ∧
    classify_xray_flux 9.999e-9 = "A-class" := by
  refine ⟨?_, ?_, ?_, ?_, ?_, ?_, by norm_num [classify_xray_flux],
    by norm_num [classify_xray_flux]⟩ <;>
    · intros
      unfold classify_xray_flux
      split_ifs <;> first | rfl | linarith

/-- Witness for C4 at the boundary flux 1e-8. -/
theorem classify_xray_flux_breakpoints_witness :
    (0 : ℚ) ≤ 1e-8 ∧ classify_xray_flux 1e-8 = "B-class" :=
  ⟨by norm_num,
    (classify_xray_flux_breakpoints 1e-8 (by norm_num)).2.1 le_rfl (by norm_num)⟩

/-- C5: the activity level is determined from the 24h class counts by the
cascade any X then Very High, M at least 3 then High, M at least 1 then
Moderate, C at least 5 then Low-Moderate, C at least 1 then Low, B at least 1
then Very Low, else Quiet, earlier rules taking precedence; in particular the
counts X 0, M 1, C 10, B 0 classify as Moderate. -/
theorem classify_activity_level_characterization (fc : FlareCounts) :
    (classify_activity_level fc = "Very High" ↔ 0 < fc.X) ∧
    (classify_activity_level fc = "High" ↔ fc.X = 0 ∧ 3 ≤ fc.M) ∧
    (classify_activity_level fc = "Moderate" ↔ fc.X = 0 ∧ 1 ≤ fc.M ∧ fc.M < 3) ∧
    (classify_activity_level fc = "Low-Moderate" ↔ fc.X = 0 ∧ fc.M = 0 ∧ 5 ≤ fc.C) ∧
    (classify_activity_level fc = "Low" ↔ fc.X = 0 ∧ fc.M = 0 ∧ 1 ≤ fc.C ∧ fc.C < 5) ∧
    (classify_activity_level fc = "Very Low" ↔ fc.X = 0 ∧ fc.M = 0 ∧ fc.C = 0 ∧ 1 ≤ fc.B) ∧
    (classify_activity_level fc = "Quiet" ↔ fc.X = 0 ∧ fc.M = 0 ∧ fc.C = 0 ∧ fc.B = 0) ∧
    classify_activity_level ⟨0, 10, 1, 0⟩ = "Moderate" := by
  unfold classify_activity_level
  refine ⟨?_, ?_, ?_, ?_, ?_, ?_, ?_, by decide⟩ <;>
    · split_ifs <;> simp_all <;> omega

/-- C9 counterexample: a present sunspot number of 0 is below 30 but the
assessment leaves the phase Unknown rather than Minimum, because the value is
read behind a truthiness test. -/
theorem solar_cycle_phase_zero_cex :
    solar_cycle_phase (some 0) = "Unknown" ∧ ("Unknown" : String) ≠ "Minimum" := by
  constructor
  · rfl
  · decide

/-- C9 amended: for every present and nonzero sunspot number the phase is
Minimum below 30, Rising/Declining from 30 up to below 80, and Maximum from
80 on; a missing or zero sunspot number leaves the phase Unknown. -/
theorem solar_cycle_phase_nonzero (s : ℚ) (hs : s ≠ 0) :
    (s < 30 → solar_cycle_phase (some s) = "Minimum") ∧
    (30 ≤ s → s < 80 → solar_cycle_phase (some s) = "Rising/Declining") ∧
    (80 ≤ s → solar_cycle_phase (some s) = "Maximum") ∧
    solar_cycle_phase none = "Unknown" := by
  refine ⟨?_, ?_, ?_, rfl⟩ <;>
    · intros
      simp only [solar_cycle_phase]
      split_ifs <;> first | rfl | (exfalso; first | exact hs ‹s = 0› | linarith)

/-- Witness for C9 at sunspot number 10. -/
theorem solar_cycle_phase_nonzero_witness :
    (10 : ℚ) ≠ 0 ∧ solar_cycle_phase (some 10) = "Minimum" :=
  ⟨by norm_num, (solar_cycle_phase_nonzero 10 (by norm_num)).1 (by norm_num)⟩

/-- C1 counterexample: with the magnetometer feed absent the Dst computation
returns the early-exit value 0.0, not the claimed quiet floor -2.0. -/
theorem calculate_dst_estimate_absent_feed_cex :
    calculate_dst_estimate (some ⟨some 400, none, none⟩) none = 0 ∧ ((0 : ℝ) ≠ -2) := by
  refine ⟨rfl, by norm_num⟩

/-- C1 amended: when either feed is absent the computation returns 0.0
without raising; with both feeds present, a null current Bz (and a null speed
reached with negative Bz) raises internally, is caught, and yields 0.0;
otherwise Dst is -2.0 for nonnegative Bz and -20 sqrt(V/400) |Bz| for
negative Bz, which at Bz -10 and V 400 is exactly -200.0. -/
theorem calculate_dst_estimate_cases (s : SolarWindStats) (m : MagStats) :
    calculate_dst_estimate none (some m) = 0 ∧
    calculate_dst_estimate (some s) none = 0 ∧
    (m.current_bz = none → calculate_dst_estimate (some s) (some m) = 0) ∧
    (∀ bz : ℚ, m.current_bz = some bz → 0 ≤ bz →
      calculate_dst_estimate (some s) (some m) = -2) ∧
    (∀ bz : ℚ, m.current_bz = some bz → bz < 0 → s.current_speed = none →
      calculate_dst_estimate (some s) (some m) = 0) ∧
    (∀ bz v : ℚ, m.current_bz = some bz → bz < 0 → s.current_speed = some v →
      calculate_dst_estimate (some s) (some m) =
        -20 * Real.sqrt ((v : ℝ) / 400) * |(bz : ℝ)|) ∧
    calculate_dst_estimate (some ⟨some 400, none, none⟩) (some ⟨some (-10), none, 0⟩) = -200 := by
  refine ⟨rfl, rfl, ?_, ?_, ?_, ?_, ?_⟩
  · intro h
    simp only [calculate_dst_estimate, h]
  · intro bz h hbz
    simp only [calculate_dst_estimate, h, if_pos hbz]
  · intro bz h hbz hv
    simp only [calculate_dst_estimate, h, hv, if_neg (not_le.mpr hbz)]
  · intro bz v h hbz hv
    simp only [calculate_dst_estimate, h, hv, if_neg (not_le.mpr hbz)]
  · show (if (0 : ℚ) ≤ -10 then (-2 : ℝ)
        else -20 * Real.sqrt (((400 : ℚ) : ℝ) / 400) * |((-10 : ℚ) : ℝ)|) = -200
    rw [if_neg (by norm_num)]
    rw [show (((400 : ℚ) : ℝ) / 400) = 1 by norm_num, Real.sqrt_one]
    norm_num

/-- Witness for C1 amended: the negative-Bz branch at Bz -10, V 400. -/
theorem calculate_dst_estimate_cases_witness :
    calculate_dst_estimate (some ⟨some 400, none, none⟩) (some ⟨some (-10), none, 0⟩) =
      -20 * Real.sqrt (((400 : ℚ) : ℝ) / 400) * |((-10 : ℚ) : ℝ)| :=
  (calculate_dst_estimate_cases ⟨some 400, none, none⟩ ⟨some (-10), none, 0⟩).2.2.2.2.2.1
    (-10) 400 rfl (by norm_num) rfl

/-- C7 counterexample: two regions of magnetic class beta-gamma are both
complex under the claimed substring test, so the claim predicts High, but
assess_flare_potential only tests for the substring delta and returns Low. -/
theorem assess_flare_potential_beta_gamma_cex :
    (∀ r ∈ [(⟨"beta-gamma", 100⟩ : ActiveRegion), ⟨"beta-gamma", 100⟩],
        spec_claims_complex r) ∧
    assess_flare_potential [⟨"beta-gamma", 100⟩, ⟨"beta-gamma", 100⟩] = "Low" ∧
    ("Low" : String) ≠ "High" := by
  refine ⟨by decide, by decide, by decide⟩

/-- C7 amended: a region counts as complex exactly when its lower-cased
magnetic class contains the substring delta (so beta-gamma-delta and delta
qualify but plain beta-gamma does not), and large when its area exceeds 500;
then the cascade High / Moderate / Low-Moderate / Low applies as claimed,
with Very Low for an empty region list. -/
theorem assess_flare_potential_delta_characterization (regions : List ActiveRegion)
    (hne : regions ≠ []) :
    let cc := regions.countP (fun r => decide (containsSub "delta" (strLower r.mag_class)))
    let lc := regions.countP (fun r => decide ((500 : ℚ) < r.area))
    (2 ≤ cc ∨ 3 ≤ lc → assess_flare_potential regions = "High") ∧
    (cc < 2 → lc < 3 → 1 ≤ cc ∨ 2 ≤ lc → assess_flare_potential regions = "Moderate") ∧
    (cc = 0 → lc < 2 → 5 ≤ regions.length → assess_flare_potential regions = "Low-Moderate") ∧
    (cc = 0 → lc < 2 → regions.length < 5 → assess_flare_potential regions = "Low") ∧
    assess_flare_potential [] = "Very Low" := by
  intro cc lc
  obtain ⟨r0, rs, rfl⟩ : ∃ r0 rs, regions = r0 :: rs :=
    match regions, hne with
    | r0 :: rs, _ => ⟨r0, rs, rfl⟩
  refine ⟨?_, ?_, ?_, ?_, rfl⟩ <;>
    · intros
      show (if 2 ≤ cc ∨ 3 ≤ lc then "High"
            else if 1 ≤ cc ∨ 2 ≤ lc then "Moderate"
            else if 5 ≤ (r0 :: rs).length then "Low-Moderate"
            else "Low") = _
      split_ifs <;> first | rfl | omega

/-- Witness for C7 amended: one delta region and one beta-gamma region give
Moderate. -/
theorem assess_flare_potential_delta_witness :
    assess_flare_potential [⟨"beta-gamma-delta", 100⟩, ⟨"beta-gamma", 100⟩] = "Moderate" :=
  (assess_flare_potential_delta_characterization
      [⟨"beta-gamma-delta", 100⟩, ⟨"beta-gamma", 100⟩] (by decide)).2.1
    (by decide) (by decide) (by decide)

/-- The clamped raw probability only takes two-decimal values, so the
round-to-two-decimals step of the prediction leaves it unchanged. -/
lemma round2_storm (speed bz dst : ℚ) :
    round2 (min (storm_probability_raw speed bz dst) 0.95)
      = min (storm_probability_raw speed bz dst) 0.95 := by
  unfold storm_probability_raw round2
  simp only [min_def]
  split_ifs <;> norm_num [round_eq]

/-- The raw probability is at least the 0.1 base. -/
lemma storm_probability_raw_nonneg (speed bz dst : ℚ) :
    0 ≤ storm_probability_raw speed bz dst := by
  unfold storm_probability_raw
  split_ifs <;> norm_num

/-- Kp estimation follows the probability breakpoints 0.2 / 0.4 / 0.6 / 0.8. -/
lemma estimate_kp_breakpoints (p : ℚ) :
    (p < 0.2 → estimate_kp p = 3) ∧
    (0.2 ≤ p → p < 0.4 → estimate_kp p = 4) ∧
    (0.4 ≤ p → p < 0.6 → estimate_kp p = 5) ∧
    (0.6 ≤ p → p < 0.8 → estimate_kp p = 6) ∧
    (0.8 ≤ p → estimate_kp p = 7) := by
  unfold estimate_kp
  refine ⟨?_, ?_, ?_, ?_, ?_⟩ <;>
    · intros
      split_ifs <;> first | rfl | linarith

/-- The estimated Kp lands in the range 3..7. -/
lemma estimate_kp_mem (p : ℚ) :
    estimate_kp p = 3 ∨ estimate_kp p = 4 ∨ estimate_kp p = 5 ∨
      estimate_kp p = 6 ∨ estimate_kp p = 7 := by
  unfold estimate_kp
  split_ifs <;> simp

/-- The condition label uses the same breakpoints as the Kp estimate, so it
is a function of the estimated Kp. -/
lemma condition_matches_kp (p : ℚ) :
    get_condition_description p = condition_of_kp (estimate_kp p) := by
  unfold get_condition_description estimate_kp condition_of_kp
  split_ifs <;> first | rfl | omega

/-- At the claimed clamp example the forecast emits the single-day prediction
with probability 0.95, Kp 7 and the strong-storm label. -/
lemma generate_forecast_clamped_example :
    generate_forecast (some ⟨some 1000, none, none⟩) (some ⟨some (-20), none, 0⟩) (-60) 1 =
      Except.ok [⟨1, 0.95, 7, "Strong storm expected"⟩] := by
  have h1 : min (storm_probability_raw 1000 (-20) (-60)) (0.95 : ℚ) = 0.95 := by
    norm_num [storm_probability_raw, min_def]
  simp only [generate_forecast, numOrRaise]
  rw [h1]
  norm_num [round2, round_eq, estimate_kp, get_condition_description]
  simp [List.range_succ]

/-- C2: every prediction of generate_forecast carries the storm probability
0.1 plus 0.3 for speed above 600 plus 0.4 for Bz below -10 plus 0.2 for Dst
below -50, clamped at 0.95; at speed 1000, Bz -20, Dst -60 the raw sum is
1.0 and the emitted probability is the clamp value 0.95. -/
theorem generate_forecast_storm_probability
    (solar_wind : Option SolarWindStats) (mag_data : Option MagStats)
    (speed bz dst : ℚ) (days : ℕ) (preds : List Prediction) (p : Prediction)
    (hs : numOrRaise solar_wind (fun s => s.current_speed) = Except.ok speed)
    (hb : numOrRaise mag_data (fun m => m.current_bz) = Except.ok bz)
    (hok : generate_forecast solar_wind mag_data dst days = Except.ok preds)
    (hp : p ∈ preds) :
    p.storm_probability =
      min (0.1 + (if 600 < speed then 0.3 else 0) + (if bz < -10 then 0.4 else 0)
            + (if dst < -50 then 0.2 else 0)) 0.95 ∧
    storm_probability_raw 1000 (-20) (-60) = 1 ∧
    generate_forecast (some ⟨some 1000, none, none⟩) (some ⟨some (-20), none, 0⟩) (-60) 1 =
      Except.ok [⟨1, 0.95, 7, "Strong storm expected"⟩] := by
  refine ⟨?_, by norm_num [storm_probability_raw], generate_forecast_clamped_example⟩
  simp only [generate_forecast, hs, hb, Except.ok.injEq] at hok
  subst hok
  obtain ⟨i, _, rfl⟩ := List.mem_map.mp hp
  show round2 (min (storm_probability_raw speed bz dst) 0.95) = _
  rw [round2_storm]
  rfl

/-- Witness for C2 at the clamped example speed 1000, Bz -20, Dst -60. -/
theorem generate_forecast_storm_probability_witness :
    (⟨1, 0.95, 7, "Strong storm expected"⟩ : Prediction).storm_probability =
      min (0.1 + (if (600 : ℚ) < 1000 then 0.3 else 0)
            + (if (-20 : ℚ) < -10 then 0.4 else 0)
            + (if (-60 : ℚ) < -50 then 0.2 else 0)) 0.95 ∧
    storm_probability_raw 1000 (-20) (-60) = 1 ∧
    generate_forecast (some ⟨some 1000, none, none⟩) (some ⟨some (-20), none, 0⟩) (-60) 1 =
      Except.ok [⟨1, 0.95, 7, "Strong storm expected"⟩] :=
  generate_forecast_storm_probability
    (some ⟨some 1000, none, none⟩) (some ⟨some (-20), none, 0⟩)
    1000 (-20) (-60) 1 [⟨1, 0.95, 7, "Strong storm expected"⟩]
    ⟨1, 0.95, 7, "Strong storm expected"⟩ rfl rfl
    generate_forecast_clamped_example (List.mem_singleton.mpr rfl)

/-- C3: when the current speed and Bz read off the feeds without raising,
generate_forecast for days at least 1 returns exactly one prediction per day
offset 1..days, all sharing the same probability, Kp and label; each
probability lies in [0, 0.95], each Kp in 3..7 following the probability
breakpoints 0.2 / 0.4 / 0.6 / 0.8, and the label is the function
condition_of_kp of the Kp value. -/
theorem generate_forecast_predictions_shape
    (solar_wind : Option SolarWindStats) (mag_data : Option MagStats)
    (speed bz dst : ℚ) (days : ℕ) (_hdays : 1 ≤ days)
    (hs : numOrRaise solar_wind (fun s => s.current_speed) = Except.ok speed)
    (hb : numOrRaise mag_data (fun m => m.current_bz) = Except.ok bz) :
    ∃ preds, generate_forecast solar_wind mag_data dst days = Except.ok preds ∧
      preds.length = days ∧
      preds.map (fun p => p.dayOffset) = (List.range days).map (fun i => i + 1) ∧
      (∀ p ∈ preds, ∀ q ∈ preds, p.storm_probability = q.storm_probability ∧
        p.expected_kp = q.expected_kp ∧ p.expected_conditions = q.expected_conditions) ∧
      (∀ p ∈ preds,
        0 ≤ p.storm_probability ∧ p.storm_probability ≤ 0.95 ∧
        (p.expected_kp = 3 ∨ p.expected_kp = 4 ∨ p.expected_kp = 5 ∨
          p.expected_kp = 6 ∨ p.expected_kp = 7) ∧
        (p.storm_probability < 0.2 → p.expected_kp = 3) ∧
        (0.2 ≤ p.storm_probability → p.storm_probability < 0.4 → p.expected_kp = 4) ∧
        (0.4 ≤ p.storm_probability → p.storm_probability < 0.6 → p.expected_kp = 5) ∧
        (0.6 ≤ p.storm_probability → p.storm_probability < 0.8 → p.expected_kp = 6) ∧
        (0.8 ≤ p.storm_probability → p.expected_kp = 7) ∧
        p.expected_conditions = condition_of_kp p.expected_kp) := by
  refine ⟨(List.range days).map (fun i =>
      let m := min (storm_probability_raw speed bz dst) 0.95
      { dayOffset := i + 1
        storm_probability := round2 m
        expected_kp := estimate_kp m
        expected_conditions := get_condition_description m }),
    by simp only [generate_forecast, hs, hb], ?_, ?_, ?_, ?_⟩
  · simp
  · simp
  · intro p hp q hq
    obtain ⟨i, _, rfl⟩ := List.mem_map.mp hp
    obtain ⟨j, _, rfl⟩ := List.mem_map.mp hq
    exact ⟨rfl, rfl, rfl⟩
  · intro p hp
    obtain ⟨i, _, rfl⟩ := List.mem_map.mp hp
    refine ⟨?_, ?_, estimate_kp_mem _, ?_, ?_, ?_, ?_, ?_, condition_matches_kp _⟩
    · show (0 : ℚ) ≤ round2 (min (storm_probability_raw speed bz dst) 0.95)
      rw [round2_storm]
      exact le_min (storm_probability_raw_nonneg speed bz dst) (by norm_num)
    · show round2 (min (storm_probability_raw speed bz dst) 0.95) ≤ 0.95
      rw [round2_storm]
      exact min_le_right _ _
    · show round2 (min (storm_probability_raw speed bz dst) 0.95) < 0.2 → _
      rw [round2_storm]
      exact (estimate_kp_breakpoints _).1
    · show 0.2 ≤ round2 (min (storm_probability_raw speed bz dst) 0.95) →
        round2 (min (storm_probability_raw speed bz dst) 0.95) < 0.4 → _
      rw [round2_storm]
      exact fun h1 h2 => (estimate_kp_breakpoints _).2.1 h1 h2
    · show 0.4 ≤ round2 (min (storm_probability_raw speed bz dst) 0.95) →
        round2 (min (storm_probability_raw speed bz dst) 0.95) < 0.6 → _
      rw [round2_storm]
      exact fun h1 h2 => (estimate_kp_breakpoints _).2.2.1 h1 h2
    · show 0.6 ≤ round2 (min (storm_probability_raw speed bz dst) 0.95) →
        round2 (min (storm_probability_raw speed bz dst) 0.95) < 0.8 → _
      rw [round2_storm]
      exact fun h1 h2 => (estimate_kp_breakpoints _).2.2.2.1 h1 h2
    · show 0.8 ≤ round2 (min (storm_probability_raw speed bz dst) 0.95) → _
      rw [round2_storm]
      exact (estimate_kp_breakpoints _).2.2.2.2

/-- Witness for C3 at speed 1000, Bz -20, Dst -60 over 3 days. -/
theorem generate_forecast_predictions_shape_witness :
    ∃ preds, generate_forecast (some ⟨some 1000, none, none⟩)
        (some ⟨some (-20), none, 0⟩) (-60) 3 = Except.ok preds ∧
      preds.length = 3 ∧
      preds.map (fun p => p.dayOffset) = (List.range 3).map (fun i => i + 1) ∧
      (∀ p ∈ preds, ∀ q ∈ preds, p.storm_probability = q.storm_probability ∧
        p.expected_kp = q.expected_kp ∧ p.expected_conditions = q.expected_conditions) ∧
      (∀ p ∈ preds,
        0 ≤ p.storm_probability ∧ p.storm_probability ≤ 0.95 ∧
        (p.expected_kp = 3 ∨ p.expected_kp = 4 ∨ p.expected_kp = 5 ∨
          p.expected_kp = 6 ∨ p.expected_kp = 7) ∧
        (p.storm_probability < 0.2 → p.expected_kp = 3) ∧
        (0.2 ≤ p.storm_probability → p.storm_probability < 0.4 → p.expected_kp = 4) ∧
        (0.4 ≤ p.storm_probability → p.storm_probability < 0.6 → p.expected_kp = 5) ∧
        (0.6 ≤ p.storm_probability → p.storm_probability < 0.8 → p.expected_kp = 6) ∧
        (0.8 ≤ p.storm_probability → p.expected_kp = 7) ∧
        p.expected_conditions = condition_of_kp p.expected_kp) :=
  generate_forecast_predictions_shape (some ⟨some 1000, none, none⟩)
    (some ⟨some (-20), none, 0⟩) 1000 (-20) (-60) 3 (by norm_num) rfl rfl

/-- C6: on a current-metric state whose speed, Bz, Dst and southward duration
are numbers, check_alerts emits exactly the alerts of the independently
satisfied thresholds, in check order; at Dst -150, speed 500, Bz -5 and
southward duration 0 that is the single severe geomagnetic-storm alert. -/
theorem check_alerts_thresholds (speed bz dst sd : ℚ) :
    check_alerts (some ⟨some speed, none, none⟩) (some ⟨some bz, none, sd⟩) dst =
      (if 700 < speed then [(⟨"warning", "solar_wind"⟩ : Alert)] else []) ++
      (if bz < -15 then [(⟨"alert", "magnetic_field"⟩ : Alert)] else []) ++
      (if dst < -100 then [(⟨"severe", "geomagnetic_storm"⟩ : Alert)] else []) ++
      (if 180 < sd then [(⟨"warning", "sustained_southward"⟩ : Alert)] else []) ∧
    check_alerts (some ⟨some 500, none, none⟩) (some ⟨some (-5), none, 0⟩) (-150) =
      [⟨"severe", "geomagnetic_storm"⟩] := by
  constructor
  · simp only [check_alerts, alertChecks, numOrRaise, Except.map]
    split_ifs <;> simp [runChecks]
  · simp only [check_alerts, alertChecks, numOrRaise, Except.map]
    norm_num [runChecks]

/-- The try/except accumulation of check_alerts keeps exactly the alerts of
the checks before the first raising one. -/
lemma runChecks_eq (l : List (Except Unit (Option Alert))) :
    runChecks l = (l.takeWhile okCheck).filterMap checkAlert := by
  induction l with
  | nil => rfl
  | cons c rest ih =>
    cases c with
    | error e => rfl
    | ok o =>
      cases o with
      | none => simpa [runChecks, okCheck, checkAlert, List.takeWhile_cons] using ih
      | some a => simpa [runChecks, okCheck, checkAlert, List.takeWhile_cons] using ih

/-- C10: check_alerts always returns the list of alerts contributed by the
maximal prefix of checks that evaluate without raising, so an internal
failure never escapes and alerts appended before it are kept; concretely,
with speed 800, a null current Bz and Dst -150, only the solar-wind warning
already appended before the TypeError is returned. -/
theorem check_alerts_runs_to_first_failure
    (solar_wind : Option SolarWindStats) (mag_data : Option MagStats) (dst : ℚ) :
    check_alerts solar_wind mag_data dst =
      ((alertChecks solar_wind mag_data dst).takeWhile okCheck).filterMap checkAlert ∧
    check_alerts (some ⟨some 800, none, none⟩) (some ⟨none, none, 0⟩) (-150) =
      [⟨"warning", "solar_wind"⟩] := by
  refine ⟨runChecks_eq _, ?_⟩
  simp only [check_alerts, alertChecks, numOrRaise, Except.map]
  norm_num [runChecks]

/-- The fold underlying Python's max with key either never upgrades the
accumulator, or ends on the first element strictly greater than everything
before it and at least everything after it. -/
lemma foldl_max_spec {α : Type} (key : α → ℚ) (xs : List α) :
    ∀ b : α,
      (xs.foldl (fun c y => if key c < key y then y else c) b = b ∧
        ∀ x ∈ xs, key x ≤ key b) ∨
      (∃ l1 r l2, xs = l1 ++ r :: l2 ∧
        xs.foldl (fun c y => if key c < key y then y else c) b = r ∧
        key b < key r ∧ (∀ x ∈ l1, key x < key r) ∧ (∀ x ∈ l2, key x ≤ key r)) := by
  induction xs with
  | nil =>
    intro b
    left
    exact ⟨rfl, by simp⟩
  | cons y ys ih =>
    intro b
    by_cases hy : key b < key y
    · rcases ih y with ⟨heq, hle⟩ | ⟨l1, r, l2, hsplit, heq, hlt, hl1, hl2⟩
      · right
        refine ⟨[], y, ys, rfl, ?_, hy, by simp, hle⟩
        simpa [List.foldl_cons, if_pos hy] using heq
      · right
        refine ⟨y :: l1, r, l2, by rw [hsplit, List.cons_append], ?_, lt_trans hy hlt, ?_, hl2⟩
        · simpa [List.foldl_cons, if_pos hy] using heq
        · intro x hx
          rcases List.mem_cons.mp hx with rfl | hx
          · exact hlt
          · exact hl1 x hx
    · have hyb : key y ≤ key b := not_lt.mp hy
      rcases ih b with ⟨heq, hle⟩ | ⟨l1, r, l2, hsplit, heq, hlt, hl1, hl2⟩
      · left
        refine ⟨?_, ?_⟩
        · simpa [List.foldl_cons, if_neg hy] using heq
        · intro x hx
          rcases List.mem_cons.mp hx with rfl | hx
          · exact hyb
          · exact hle x hx
      · right
        refine ⟨y :: l1, r, l2, by rw [hsplit, List.cons_append], ?_, hlt, ?_, hl2⟩
        · simpa [List.foldl_cons, if_neg hy] using heq
        · intro x hx
          rcases List.mem_cons.mp hx with rfl | hx
          · exact lt_of_le_of_lt hyb hlt
          · exact hl1 x hx

/-- Python's max with key on a nonempty list returns an element that strictly
beats everything encountered before it and is not beaten by anything after
it: the first-encountered maximum. -/
lemma pyMax_first_argmax {α : Type} (key : α → ℚ) (l : List α) (hl : l ≠ []) :
    ∃ r l1 l2, pyMax key l = some r ∧ l = l1 ++ r :: l2 ∧
      (∀ x ∈ l1, key x < key r) ∧ (∀ x ∈ l2, key x ≤ key r) := by
  match l, hl with
  | x :: xs, _ =>
    rcases foldl_max_spec key xs x with ⟨heq, hle⟩ | ⟨l1, r, l2, hsplit, heq, hlt, hl1, hl2⟩
    · exact ⟨x, [], xs, by simp [pyMax, heq], rfl, by simp, hle⟩
    · refine ⟨r, x :: l1, l2, by simp [pyMax, heq], by rw [hsplit, List.cons_append], ?_, hl2⟩
      intro z hz
      rcases List.mem_cons.mp hz with rfl | hz
      · exact hlt
      · exact hl1 z hz

/-- C8: when no candidate matches the flare class by event history or by the
tiered probability thresholds, the attributed region is the first-encountered
region of the feed maximizing the weighted score complex times 1000 plus area
plus c probability plus 10 times m probability plus 100 times x probability:
it scores at least every region, and strictly above every region before it. -/
theorem flare_source_region_fallback (flare_class : Char) (trs : List SolarRegion)
    (hcand : candidate_regions flare_class trs = []) (htrs : trs ≠ []) :
    ∃ r l1 l2, flare_source_region flare_class trs = some r ∧
      trs = l1 ++ r :: l2 ∧
      (∀ x ∈ trs, complexScore x ≤ complexScore r) ∧
      (∀ x ∈ l1, complexScore x < complexScore r) ∧
      (∀ x ∈ l2, complexScore x ≤ complexScore r) := by
  obtain ⟨r, l1, l2, hmax, hsplit, hl1, hl2⟩ := pyMax_first_argmax complexScore trs htrs
  refine ⟨r, l1, l2, ?_, hsplit, ?_, hl1, hl2⟩
  · unfold flare_source_region
    rw [hcand]
    exact hmax
  · intro x hx
    rw [hsplit] at hx
    rcases List.mem_append.mp hx with h | h
    · exact le_of_lt (hl1 x h)
    · rcases List.mem_cons.mp h with rfl | h
      · exact le_refl _
      · exact hl2 x h

/-- Witness for C8: two regions with no X-flare history and X probability
below the threshold tie on the fallback score; the first is attributed. -/
theorem flare_source_region_fallback_witness :
    ∃ r l1 l2,
      flare_source_region 'X'
        [⟨"r1", "loc", 100, "A", 0, 0, 0, 5, 0, 0⟩,
         ⟨"r2", "loc", 100, "A", 0, 0, 0, 5, 0, 0⟩] = some r ∧
      ([⟨"r1", "loc", 100, "A", 0, 0, 0, 5, 0, 0⟩,
        ⟨"r2", "loc", 100, "A", 0, 0, 0, 5, 0, 0⟩] : List SolarRegion) = l1 ++ r :: l2 ∧
      (∀ x ∈ ([⟨"r1", "loc", 100, "A", 0, 0, 0, 5, 0, 0⟩,
        ⟨"r2", "loc", 100, "A", 0, 0, 0, 5, 0, 0⟩] : List SolarRegion),
        complexScore x ≤ complexScore r) ∧
      (∀ x ∈ l1, complexScore x < complexScore r) ∧
      (∀ x ∈ l2, complexScore x ≤ complexScore r) :=
  flare_source_region_fallback 'X'
    [⟨"r1", "loc", 100, "A", 0, 0, 0, 5, 0, 0⟩,
     ⟨"r2", "loc", 100, "A", 0, 0, 0, 5, 0, 0⟩]
    (by decide) (by decide)

end SpaceWeather
